import Mathlib

set_option maxHeartbeats 1000000

/-!
Shallow embedding of the sammygun INSPIRE-validator orchestration scripts
(src/New_Validatoe_Inspiah.py, src/validatorInpire.py, src/my_validator.py).

JSON payloads returned by the remote service are modeled by the inductive
type Json below.  Python dictionary access is modeled by explicit helper
functions that reproduce CPython semantics, including the faults: calling
the method get on a value that is not a dict raises AttributeError, the
subscript operator raises KeyError for an absent key on a dict and
TypeError on a non-dict, and iteration over a non-iterable raises
TypeError.  Python truthiness of JSON-shaped values is modeled by
Json.truthy.  Fallible code returns Except PyErr.  HTTP exchanges are
modeled by passing the response the mocked service would produce; the
local file system and a network-call counter are explicit state where a
claim needs them.  Wall-clock time in the poll loop is modeled by a clock
that each status check advances by the duration of that poll and each sleep
advances by the poll interval.
-/

/-- A JSON value as produced by the json module: objects keep their
textual field order, which is the order the remote service returned. -/
inductive Json where
  | null : Json
  | bool : Bool → Json
  | num : Int → Json
  | str : String → Json
  | arr : List Json → Json
  | obj : List (String × Json) → Json

mutual

/-- Structural decidable equality for Json (the deriving handler does not
support this nested inductive). -/
def Json.decEq : (a b : Json) → Decidable (a = b)
  | .null, .null => .isTrue rfl
  | .null, .bool _ => .isFalse nofun
  | .null, .num _ => .isFalse nofun
  | .null, .str _ => .isFalse nofun
  | .null, .arr _ => .isFalse nofun
  | .null, .obj _ => .isFalse nofun
  | .bool _, .null => .isFalse nofun
  | .bool a, .bool b =>
    if h : a = b then .isTrue (by rw [h]) else .isFalse (fun hh => h (Json.bool.inj hh))
  | .bool _, .num _ => .isFalse nofun
  | .bool _, .str _ => .isFalse nofun
  | .bool _, .arr _ => .isFalse nofun
  | .bool _, .obj _ => .isFalse nofun
  | .num _, .null => .isFalse nofun
  | .num _, .bool _ => .isFalse nofun
  | .num a, .num b =>
    if h : a = b then .isTrue (by rw [h]) else .isFalse (fun hh => h (Json.num.inj hh))
  | .num _, .str _ => .isFalse nofun
  | .num _, .arr _ => .isFalse nofun
  | .num _, .obj _ => .isFalse nofun
  | .str _, .null => .isFalse nofun
  | .str _, .bool _ => .isFalse nofun
  | .str _, .num _ => .isFalse nofun
  | .str a, .str b =>
    if h : a = b then .isTrue (by rw [h]) else .isFalse (fun hh => h (Json.str.inj hh))
  | .str _, .arr _ => .isFalse nofun
  | .str _, .obj _ => .isFalse nofun
  | .arr _, .null => .isFalse nofun
  | .arr _, .bool _ => .isFalse nofun
  | .arr _, .num _ => .isFalse nofun
  | .arr _, .str _ => .isFalse nofun
  | .arr xs, .arr ys =>
    match Json.decEqList xs ys with
    | .isTrue h => .isTrue (by rw [h])
    | .isFalse h => .isFalse (fun hh => h (Json.arr.inj hh))
  | .arr _, .obj _ => .isFalse nofun
  | .obj _, .null => .isFalse nofun
  | .obj _, .bool _ => .isFalse nofun
  | .obj _, .num _ => .isFalse nofun
  | .obj _, .str _ => .isFalse nofun
  | .obj _, .arr _ => .isFalse nofun
  | .obj fs, .obj gs =>
    match Json.decEqFields fs gs with
    | .isTrue h => .isTrue (by rw [h])
    | .isFalse h => .isFalse (fun hh => h (Json.obj.inj hh))

/-- Decidable equality for lists of Json values. -/
def Json.decEqList : (a b : List Json) → Decidable (a = b)
  | [], [] => .isTrue rfl
  | [], _ :: _ => .isFalse nofun
  | _ :: _, [] => .isFalse nofun
  | x :: xs, y :: ys =>
    match Json.decEq x y, Json.decEqList xs ys with
    | .isTrue h1, .isTrue h2 => .isTrue (by rw [h1, h2])
    | .isFalse h1, _ => .isFalse (fun hh => h1 (List.cons.inj hh).1)
    | .isTrue _, .isFalse h2 => .isFalse (fun hh => h2 (List.cons.inj hh).2)

/-- Decidable equality for Json object field lists. -/
def Json.decEqFields : (a b : List (String × Json)) → Decidable (a = b)
  | [], [] => .isTrue rfl
  | [], _ :: _ => .isFalse nofun
  | _ :: _, [] => .isFalse nofun
  | (k1, v1) :: xs, (k2, v2) :: ys =>
    match String.decEq k1 k2, Json.decEq v1 v2, Json.decEqFields xs ys with
    | .isTrue h0, .isTrue h1, .isTrue h2 => .isTrue (by rw [h0, h1, h2])
    | .isFalse h0, _, _ => .isFalse (fun hh => h0 (Prod.mk.inj (List.cons.inj hh).1).1)
    | .isTrue _, .isFalse h1, _ => .isFalse (fun hh => h1 (Prod.mk.inj (List.cons.inj hh).1).2)
    | .isTrue _, .isTrue _, .isFalse h2 => .isFalse (fun hh => h2 (List.cons.inj hh).2)

end

instance : DecidableEq Json := Json.decEq

/-- Errors a run of the scripts can raise.  attributeError, typeError and
keyError model the Python exceptions of those names; httpError models
requests.exceptions.HTTPError as raised by Response.raise_for_status;
missingIdentifier models the RuntimeError raised by start_test_run when
no run id is found (it carries the raw payload, as the message does);
fileNotFound models FileNotFoundError. -/
inductive PyErr where
  | attributeError : PyErr
  | typeError : PyErr
  | keyError : String → PyErr
  | httpError : Nat → PyErr
  | missingIdentifier : Json → PyErr
  | fileNotFound : String → PyErr
deriving DecidableEq

instance instDecEqExcept {e a : Type} [DecidableEq e] [DecidableEq a] :
    DecidableEq (Except e a) := fun x y =>
  match x, y with
  | .ok u, .ok v =>
    if h : u = v then .isTrue (by rw [h]) else .isFalse (fun hh => h (Except.ok.inj hh))
  | .ok _, .error _ => .isFalse nofun
  | .error _, .ok _ => .isFalse nofun
  | .error u, .error v =>
    if h : u = v then .isTrue (by rw [h]) else .isFalse (fun hh => h (Except.error.inj hh))

/-- First binding of a key in an association list.  Dict keys are unique
in the payloads we model, so the first binding is the only one. -/
def Json.lookup : List (String × Json) → String → Option Json
  | [], _ => none
  | (k, v) :: rest, key => if k = key then some v else Json.lookup rest key

/-- Python truthiness of a JSON value: None, False, 0, the empty string,
the empty list and the empty dict are falsy; everything else is truthy. -/
def Json.truthy : Json → Bool
  | .null => false
  | .bool b => b
  | .num n => n != 0
  | .str s => s != ""
  | .arr xs => !xs.isEmpty
  | .obj fs => !fs.isEmpty

/-- Python d.get(k, default): the binding or the default on a dict;
AttributeError when the receiver is not a dict. -/
def pyGetD (j : Json) (k : String) (d : Json) : Except PyErr Json :=
  match j with
  | .obj fs => .ok ((Json.lookup fs k).getD d)
  | _ => .error .attributeError

/-- Python d.get(k): absent keys give None. -/
def pyGet (j : Json) (k : String) : Except PyErr Json :=
  pyGetD j k .null

/-- Python d[k]: KeyError when the key is absent from a dict, TypeError
when the receiver is not a dict (e.g. subscripting a string by a string). -/
def pySubscript (j : Json) (k : String) : Except PyErr Json :=
  match j with
  | .obj fs =>
    match Json.lookup fs k with
    | some v => .ok v
    | none => .error (.keyError k)
  | _ => .error .typeError

/-- Substring test, modeling the Python membership operator on strings. -/
def strContains (s sub : String) : Bool :=
  if sub = "" then true else (s.splitOn sub).length != 1

/-- Python membership test for a string key: key test on dicts, element
test on lists, substring test on strings, TypeError otherwise. -/
def pyContains (j : Json) (k : String) : Except PyErr Bool :=
  match j with
  | .obj fs => .ok ((Json.lookup fs k).isSome)
  | .arr xs => .ok (xs.contains (.str k))
  | .str s => .ok (strContains s k)
  | _ => .error .typeError

/-- Python iteration: the elements of a list, the keys of a dict, the
one-character strings of a string; TypeError otherwise. -/
def pyIter : Json → Except PyErr (List Json)
  | .arr xs => .ok xs
  | .obj fs => .ok (fs.map (fun p => Json.str p.1))
  | .str s => .ok (s.toList.map (fun c => Json.str (String.mk [c])))
  | _ => .error .typeError

/-- Python x or y with a lazy right operand, both operands fallible: the
value of x when truthy, otherwise the value of y. -/
def pyOrE (x : Except PyErr Json) (y : Unit → Except PyErr Json) : Except PyErr Json :=
  match x with
  | .error e => .error e
  | .ok v => if v.truthy then .ok v else y ()

/-- Python x or y on already-computed values. -/
def pyOrJ (a b : Json) : Json := if a.truthy then a else b

/-- Total shadow of pyGet, agreeing with it on dicts; used in statements
about payloads known to be dicts. -/
def jGet (j : Json) (k : String) : Json :=
  match j with
  | .obj fs => (Json.lookup fs k).getD .null
  | _ => .null

/-- Total shadow of pyGetD, agreeing with it on dicts. -/
def jGetD (j : Json) (k : String) (d : Json) : Json :=
  match j with
  | .obj fs => (Json.lookup fs k).getD d
  | _ => .null

/-- Is this value a JSON object (a Python dict)? -/
def Json.isObj : Json → Bool
  | .obj _ => true
  | _ => false

/-- Python str.upper for the ASCII status strings the service produces
(written over the character list so that it evaluates in the kernel). -/
def pyUpper (s : String) : String := String.mk (s.toList.map Char.toUpper)

/-- An HTTP response as the requests library presents it: status code,
the value Response.json() would parse, and the bytes of Response.content
(report bodies), the latter modeled as a string. -/
structure HttpResp where
  status : Nat
  body : Json
  content : String
deriving DecidableEq

/-- Response.raise_for_status of the requests library: raises HTTPError
exactly for status codes in the 4xx and 5xx ranges. -/
def raise_for_status (r : HttpResp) : Except PyErr Unit :=
  if 400 ≤ r.status ∧ r.status < 600 then .error (.httpError r.status) else .ok ()

/-- Hardcoded poll interval POLL_EVERY (both scripts, 5 seconds). -/
def POLL_EVERY : Nat := 5

/-- Hardcoded poll timeout POLL_TIMEOUT (both scripts, 25 minutes). -/
def POLL_TIMEOUT : Nat := 25 * 60

/-- New_Validatoe_Inspiah.py lines 61 to 65: the nested run-id candidate
path EtfItemCollection, testRuns, TestRun, id, each level read with
dict.get defaulting to an empty dict, the last level with plain get. -/
def nested_run_id (resp : Json) : Except PyErr Json :=
  match pyGetD resp "EtfItemCollection" (.obj []) with
  | .error e => .error e
  | .ok a =>
    match pyGetD a "testRuns" (.obj []) with
    | .error e => .error e
    | .ok b =>
      match pyGetD b "TestRun" (.obj []) with
      | .error e => .error e
      | .ok c => pyGet c "id"

/-- New_Validatoe_Inspiah.py lines 59 to 73 (and equivalently
validatorInpire.py lines 100 to 115): run-id extraction from the parsed
run-creation response, an or-chain over the nested path, the top-level
id and testRunId, followed by the RuntimeError when the chain is falsy. -/
def start_test_run_id (resp : Json) : Except PyErr Json :=
  match pyOrE (nested_run_id resp) (fun _ =>
      pyOrE (pyGet resp "id") (fun _ => pyGet resp "testRunId")) with
  | .error e => .error e
  | .ok run_id =>
    if run_id.truthy then .ok run_id else .error (.missingIdentifier resp)

/-- New_Validatoe_Inspiah.py lines 46 to 51 (and validatorInpire.py lines
89 to 95): the JSON body of the run-creation POST. -/
def start_test_run_body (label : String) (executable_test_suite_ids : List String)
    (test_object : Json) : Json :=
  .obj [("label", .str label),
        ("executableTestSuiteIds", .arr (executable_test_suite_ids.map Json.str)),
        ("arguments", .obj [("files_to_test", .str ".*"), ("tests_to_execute", .str ".*")]),
        ("testObject", test_object)]

/-- New_Validatoe_Inspiah.py lines 43 to 73: start_test_run builds the
body, posts it (the wire is modeled by the function send from request
body to response), checks the status and extracts the run id. -/
def start_test_run (send : Json → HttpResp) (label : String)
    (executable_test_suite_ids : List String) (test_object : Json) : Except PyErr Json :=
  let r := send (start_test_run_body label executable_test_suite_ids test_object)
  match raise_for_status r with
  | .error e => .error e
  | .ok _ => start_test_run_id r.body

/-- New_Validatoe_Inspiah.py line 82: the status candidate path
TestRun, status. -/
def status_path_nested (js : Json) : Except PyErr Json :=
  match pyGetD js "TestRun" (.obj []) with
  | .error e => .error e
  | .ok a => pyGet a "status"

/-- New_Validatoe_Inspiah.py line 83: the status candidate path at the
top level. -/
def status_path_top (js : Json) : Except PyErr Json :=
  pyGet js "status"

/-- New_Validatoe_Inspiah.py line 84: the status candidate path
EtfItem, status. -/
def status_path_etf (js : Json) : Except PyErr Json :=
  match pyGetD js "EtfItem" (.obj []) with
  | .error e => .error e
  | .ok b => pyGet b "status"

/-- New_Validatoe_Inspiah.py lines 75 to 86: status extraction from the
parsed status reply, an or-chain over the three candidate paths with the
UNKNOWN sentinel as final default. -/
def get_test_run_status (js : Json) : Except PyErr Json :=
  pyOrE (status_path_nested js) (fun _ =>
    pyOrE (status_path_top js) (fun _ =>
      pyOrE (status_path_etf js) (fun _ => .ok (.str "UNKNOWN"))))

/-- New_Validatoe_Inspiah.py line 95 (validatorInpire.py line 138): the
terminal test on an observed status string, uppercased membership in the
two-element set of COMPLETED and FAILED. -/
def isTerminal (s : String) : Bool :=
  pyUpper s == "COMPLETED" || pyUpper s == "FAILED"

/-- One scripted poll of the status endpoint: the status string the
normalizer would produce for that reply (or the transport error the call
raised), paired with the wall-clock duration of the HTTP call. -/
abbrev PollEntry := Except PyErr String × Nat

/-- Outcome of the poll loop: a terminal status returned as data together
with the number of polls it took, the TimeoutError with the number of
polls made, a propagated transport error, or the end of the scripted
replies with the loop still running. -/
inductive WaitOutcome where
  | finished : String → Nat → WaitOutcome
  | pollTimeout : Nat → WaitOutcome
  | transport : PyErr → WaitOutcome
  | scriptEnded : WaitOutcome
deriving DecidableEq

/-- New_Validatoe_Inspiah.py lines 88 to 99 (validatorInpire.py lines 125
to 142): the body of wait_until_finished.  State: elapsed wall-clock time
since start and number of polls made.  Each iteration polls (advancing
the clock by the duration of that poll), returns a terminal status
immediately, otherwise raises TimeoutError when the elapsed time exceeds
the timeout, otherwise sleeps the poll interval and continues. -/
def wait_go (timeout interval : Nat) : Nat → Nat → List PollEntry → WaitOutcome
  | _, _, [] => .scriptEnded
  | elapsed, polls, (res, d) :: rest =>
    match res with
    | .error err => .transport err
    | .ok s =>
      if isTerminal s then .finished s (polls + 1)
      else if timeout < elapsed + d then .pollTimeout (polls + 1)
      else wait_go timeout interval (elapsed + d + interval) (polls + 1) rest

/-- wait_until_finished entered at time zero with no polls made yet. -/
def wait_until_finished (timeout interval : Nat) (script : List PollEntry) : WaitOutcome :=
  wait_go timeout interval 0 0 script

/-- validatorInpire.py line 26: the three keys under which the suite
block is sought, in order. -/
def suiteKeys : List String := ["executableTestSuites", "items", "ExecutableTestSuites"]

/-- validatorInpire.py lines 26 to 29: the first key of the candidate
list present in the collection, with its value. -/
def find_block : Json → List String → Except PyErr (Option Json)
  | _, [] => .ok none
  | col, k :: ks =>
    match pyContains col k with
    | .error e => .error e
    | .ok true =>
      match pySubscript col k with
      | .error e => .error e
      | .ok v => .ok (some v)
    | .ok false => find_block col ks

/-- validatorInpire.py lines 41 to 45: one suite entry flattened to a
record with id, label and description, each an or-chain of fallbacks. -/
def normalize_suite (e : Json) : Except PyErr Json :=
  match pyOrE (pyGet e "id") (fun _ =>
      pyOrE (pyGet e "@id") (fun _ => pyGet e "localId")) with
  | .error err => .error err
  | .ok i =>
    match pyOrE (pyGet e "label") (fun _ =>
        pyOrE (pyGet e "title") (fun _ => .ok (.str ""))) with
    | .error err => .error err
    | .ok l =>
      match pyGetD e "description" (.str "") with
      | .error err => .error err
      | .ok dsc => .ok (.obj [("id", i), ("label", l), ("description", dsc)])

/-- Total shadow of normalize_suite on dict entries. -/
def normObj (e : Json) : Json :=
  .obj [("id", pyOrJ (jGet e "id") (pyOrJ (jGet e "@id") (jGet e "localId"))),
        ("label", pyOrJ (jGet e "label") (pyOrJ (jGet e "title") (.str ""))),
        ("description", jGetD e "description" (.str ""))]

/-- validatorInpire.py lines 40 to 45: the loop appending one flattened
record per entry, in order. -/
def map_entries : List Json → Except PyErr (List Json)
  | [] => .ok []
  | e :: rest =>
    match normalize_suite e with
    | .error err => .error err
    | .ok s =>
      match map_entries rest with
      | .error err => .error err
      | .ok tail => .ok (s :: tail)

/-- validatorInpire.py lines 14 to 46: get_executable_test_suites applied
to the parsed suite-collection payload (the HTTP fetch already done).
The collection is the EtfItemCollection value or the payload itself; the
suite block is the first present candidate key; a falsy or absent block
returns the empty list (or the payload itself if it were a list); the
entries are the ExecutableTestSuite value of the block, or the block
itself when that value is falsy; a single dict entry is wrapped into a
one-element list; each entry is flattened in order. -/
def get_executable_test_suites (data : Json) : Except PyErr Json :=
  match pyGetD data "EtfItemCollection" data with
  | .error e => .error e
  | .ok col =>
    match find_block col suiteKeys with
    | .error e => .error e
    | .ok blockOpt =>
      let ets_block := blockOpt.getD Json.null
      if ets_block.truthy = false then
        match data with
        | .arr _ => .ok data
        | _ => .ok (.arr [])
      else
        match pyOrE (pyGet ets_block "ExecutableTestSuite") (fun _ => .ok ets_block) with
        | .error e => .error e
        | .ok entries0 =>
          let entries := if entries0.isObj then Json.arr [entries0] else entries0
          match pyIter entries with
          | .error e => .error e
          | .ok es =>
            match map_entries es with
            | .error e => .error e
            | .ok suites => .ok (.arr suites)

/-- Python dict insertion: overwrite the value in place if the key is
bound, else append the binding. -/
def dictInsert : List (Json × Json) → Json → Json → List (Json × Json)
  | [], k, v => [(k, v)]
  | (k0, v0) :: rest, k, v =>
    if k0 = k then (k0, v) :: rest else (k0, v0) :: dictInsert rest k v

/-- Python dict lookup (keys are unique by construction of dictInsert). -/
def dictGet : List (Json × Json) → Json → Option Json
  | [], _ => none
  | (k0, v0) :: rest, k => if k0 = k then some v0 else dictGet rest k

/-- my_validator.py line 50: the dict comprehension from suite label to
suite id, built left to right so a repeated label overwrites the earlier
binding. -/
def build_lookup : List (Json × Json) → List Json → Except PyErr (List (Json × Json))
  | acc, [] => .ok acc
  | acc, e :: rest =>
    match pySubscript e "label" with
    | .error err => .error err
    | .ok l =>
      match pySubscript e "id" with
      | .error err => .error err
      | .ok i => build_lookup (dictInsert acc l i) rest

/-- my_validator.py lines 47 to 50: create_test_suite_lookup, the plain
subscript path to the suite list followed by the comprehension. -/
def create_test_suite_lookup (payload : Json) : Except PyErr (List (Json × Json)) :=
  match pySubscript payload "EtfItemCollection" with
  | .error e => .error e
  | .ok a =>
    match pySubscript a "executableTestSuites" with
    | .error e => .error e
    | .ok b =>
      match pySubscript b "ExecutableTestSuite" with
      | .error e => .error e
      | .ok c =>
        match pyIter c with
        | .error e => .error e
        | .ok suites => build_lookup [] suites

/-- The local file system and network state a run sees: the set of
readable files and a counter of HTTP calls issued. -/
structure World where
  files : List String
  netCalls : Nat
deriving DecidableEq

/-- New_Validatoe_Inspiah.py lines 31 to 41: upload_local_xml opens the
file (FileNotFoundError if absent, before any network traffic), posts it
(one network call), checks the status and reads testObject, id by
subscript. -/
def upload_local_xml (w : World) (path : String) (r : HttpResp) :
    World × Except PyErr Json :=
  if w.files.contains path = false then (w, .error (.fileNotFound path))
  else
    let w2 := { w with netCalls := w.netCalls + 1 }
    match raise_for_status r with
    | .error e => (w2, .error e)
    | .ok _ =>
      match pySubscript r.body "testObject" with
      | .error e => (w2, .error e)
      | .ok t =>
        match pySubscript t "id" with
        | .error e => (w2, .error e)
        | .ok i => (w2, .ok i)

/-- New_Validatoe_Inspiah.py lines 121 to 125: the local-mode branch of
main, which checks os.path.isfile before calling upload_local_xml and
wraps the returned id into the test-object descriptor. -/
def main_local_mode (w : World) (path : String) (r : HttpResp) :
    World × Except PyErr Json :=
  if w.files.contains path = false then (w, .error (.fileNotFound path))
  else
    match upload_local_xml w path r with
    | (w2, .error e) => (w2, .error e)
    | (w2, .ok i) => (w2, .ok (.obj [("id", i)]))

/-- Write (create or overwrite) one file of the local file system. -/
def fsWrite : List (String × String) → String → String → List (String × String)
  | [], p, c => [(p, c)]
  | (q, d) :: rest, p, c =>
    if q = p then (p, c) :: rest else (q, d) :: fsWrite rest p c

/-- New_Validatoe_Inspiah.py lines 101 to 109 (validatorInpire.py lines
145 to 153): download_report_html issues the GET (response given), checks
the status, and only then opens the output path for writing and writes
the body; it returns the output path. -/
def download_report_html (fs : List (String × String)) (out_path : String) (r : HttpResp) :
    List (String × String) × Except PyErr String :=
  match raise_for_status r with
  | .error e => (fs, .error e)
  | .ok _ => (fsWrite fs out_path r.content, .ok out_path)

/-- Suite-collection payload in the canonical nesting, with the given
label-id pairs as the suite entries; input builder for statements about
the label lookup. -/
def mkSuitePayload (ls : List (String × Json)) : Json :=
  .obj [("EtfItemCollection",
    .obj [("executableTestSuites",
      .obj [("ExecutableTestSuite",
        .arr (ls.map (fun p => Json.obj [("label", .str p.1), ("id", p.2)])))])])]

/-! Shared lemmas. -/

lemma pyGet_obj (fs : List (String × Json)) (k : String) :
    pyGet (.obj fs) k = .ok (jGet (.obj fs) k) := rfl

lemma pyGetD_obj (fs : List (String × Json)) (k : String) (d : Json) :
    pyGetD (.obj fs) k d = .ok (jGetD (.obj fs) k d) := rfl

lemma pyGetD_ok_obj {j : Json} {k : String} {d v : Json} (h : pyGetD j k d = .ok v) :
    ∃ fs, j = .obj fs := by
  cases j with
  | obj fs => exact ⟨fs, rfl⟩
  | null => simp [pyGetD] at h
  | bool b => simp [pyGetD] at h
  | num n => simp [pyGetD] at h
  | str s => simp [pyGetD] at h
  | arr xs => simp [pyGetD] at h

/-! Claim C1. -/

/-- C1: on a run-creation payload whose nested candidate path evaluates
without a type fault, start_test_run returns the first of the three
candidate paths (nested, top-level id, testRunId, in that order) that
resolves to a non-empty value, and fails with the MissingIdentifier
error carrying the raw payload when all three are empty or absent. -/
theorem C1_run_id_first_path (resp nid : Json)
    (hn : nested_run_id resp = .ok nid) :
    start_test_run_id resp =
      if nid.truthy then .ok nid
      else if (jGet resp "id").truthy then .ok (jGet resp "id")
      else if (jGet resp "testRunId").truthy then .ok (jGet resp "testRunId")
      else .error (.missingIdentifier resp) := by
  obtain ⟨fs, rfl⟩ : ∃ fs, resp = .obj fs := by
    unfold nested_run_id at hn
    cases hre : pyGetD resp "EtfItemCollection" (.obj []) with
    | error e => rw [hre] at hn; simp at hn
    | ok a => exact pyGetD_ok_obj hre
  unfold start_test_run_id
  simp only [hn, pyGet_obj]
  by_cases h1 : nid.truthy
  · simp [pyOrE, h1]
  · by_cases h2 : (jGet (Json.obj fs) "id").truthy
    · simp [pyOrE, h1, h2]
    · by_cases h3 : (jGet (Json.obj fs) "testRunId").truthy
      · simp [pyOrE, h1, h2, h3]
      · simp [pyOrE, h1, h2, h3]

/-- C1 witness: the typical nested response yields its run id. -/
theorem C1_run_id_first_path_witness :
    start_test_run_id
        (.obj [("EtfItemCollection",
          .obj [("testRuns", .obj [("TestRun", .obj [("id", .str "RUN1")])])])])
      = .ok (.str "RUN1") := by
  rw [C1_run_id_first_path _ (.str "RUN1") (by decide)]
  decide

/-- C1 counterexample: in the payload below the run id is present and
non-empty at the top-level id path, yet start_test_run neither returns
it nor raises MissingIdentifier: the value at EtfItemCollection is a
string, so the chained dict.get raises AttributeError first. -/
theorem C1_run_id_first_path_cex :
    (jGet (.obj [("EtfItemCollection", .str "x"), ("id", .str "RUN1")]) "id").truthy = true
    ∧ start_test_run_id (.obj [("EtfItemCollection", .str "x"), ("id", .str "RUN1")])
        = .error .attributeError
    ∧ (.error .attributeError : Except PyErr Json) ≠ .ok (.str "RUN1")
    ∧ PyErr.attributeError
        ≠ .missingIdentifier (.obj [("EtfItemCollection", .str "x"), ("id", .str "RUN1")]) := by
  decide

/-! Claim C5. -/

/-- C5: on a status reply where each of the three candidate status paths
evaluates without a type fault and resolves to an empty value, the
status extraction returns the UNKNOWN sentinel as a successful value,
and UNKNOWN is not terminal, so the poll loop continues. -/
theorem C5_status_absent_unknown (js v1 v2 v3 : Json)
    (h1 : status_path_nested js = .ok v1) (h1f : v1.truthy = false)
    (h2 : status_path_top js = .ok v2) (h2f : v2.truthy = false)
    (h3 : status_path_etf js = .ok v3) (h3f : v3.truthy = false) :
    get_test_run_status js = .ok (.str "UNKNOWN") ∧ isTerminal "UNKNOWN" = false := by
  refine ⟨?_, by decide⟩
  unfold get_test_run_status
  simp only [h1, h2, h3]
  simp [pyOrE, h1f, h2f, h3f]

/-- C5 witness: an empty status reply maps to UNKNOWN. -/
theorem C5_status_absent_unknown_witness :
    get_test_run_status (.obj []) = .ok (.str "UNKNOWN")
    ∧ isTerminal "UNKNOWN" = false :=
  C5_status_absent_unknown (.obj []) .null .null .null rfl rfl rfl rfl rfl rfl

/-- C5 counterexample: a reply whose TestRun value is a string has no
status at any of the three paths (the second and third resolve to None),
yet the extraction raises AttributeError instead of returning UNKNOWN. -/
theorem C5_status_absent_unknown_cex :
    status_path_top (.obj [("TestRun", .str "x")]) = .ok .null
    ∧ status_path_etf (.obj [("TestRun", .str "x")]) = .ok .null
    ∧ get_test_run_status (.obj [("TestRun", .str "x")]) = .error .attributeError
    ∧ (.error .attributeError : Except PyErr Json) ≠ .ok (.str "UNKNOWN") := by
  decide

/-! Claim C9. -/

/-- C9: the run-creation request body contains exactly the four fields
label, executableTestSuiteIds (the given id sequence), arguments fixed
to the wildcard map, and testObject in its wire form, for every label,
non-empty id sequence and test object. -/
theorem C9_request_body (label : String) (ids : List String) (test_object : Json)
    (_hne : ids ≠ []) :
    ∃ fields, start_test_run_body label ids test_object = .obj fields
    ∧ fields.map Prod.fst = ["label", "executableTestSuiteIds", "arguments", "testObject"]
    ∧ Json.lookup fields "label" = some (.str label)
    ∧ Json.lookup fields "executableTestSuiteIds" = some (.arr (ids.map Json.str))
    ∧ Json.lookup fields "arguments"
        = some (.obj [("files_to_test", .str ".*"), ("tests_to_execute", .str ".*")])
    ∧ Json.lookup fields "testObject" = some test_object := by
  refine ⟨_, rfl, rfl, ?_, ?_, ?_, ?_⟩ <;> simp [Json.lookup]

/-- C9 witness at a concrete label, one-element id list and uploaded
test object. -/
theorem C9_request_body_witness :
    ∃ fields, start_test_run_body "My XML validation" ["EID1"] (.obj [("id", .str "TO1")])
        = .obj fields
    ∧ fields.map Prod.fst = ["label", "executableTestSuiteIds", "arguments", "testObject"]
    ∧ Json.lookup fields "label" = some (.str "My XML validation")
    ∧ Json.lookup fields "executableTestSuiteIds" = some (.arr [.str "EID1"])
    ∧ Json.lookup fields "arguments"
        = some (.obj [("files_to_test", .str ".*"), ("tests_to_execute", .str ".*")])
    ∧ Json.lookup fields "testObject" = some (.obj [("id", .str "TO1")]) :=
  C9_request_body "My XML validation" ["EID1"] (.obj [("id", .str "TO1")]) (by decide)

/-! Claim C6. -/

/-- C6: when the path is not a readable file, both the local-mode branch
of main and upload_local_xml itself fail with FileNotFound and the
network-call counter is unchanged: zero HTTP calls are issued. -/
theorem C6_missing_file_no_network (w : World) (path : String) (r : HttpResp)
    (h : w.files.contains path = false) :
    (main_local_mode w path r).1.netCalls = w.netCalls
    ∧ (main_local_mode w path r).2 = .error (.fileNotFound path)
    ∧ (upload_local_xml w path r).1.netCalls = w.netCalls
    ∧ (upload_local_xml w path r).2 = .error (.fileNotFound path) := by
  have h2 : path ∉ w.files := by simpa using h
  simp [main_local_mode, upload_local_xml, h2]

/-- C6 witness: an empty file system, a missing path, zero calls made. -/
theorem C6_missing_file_no_network_witness :
    (main_local_mode ⟨[], 0⟩ "missing.xml" ⟨200, .null, ""⟩).1.netCalls = 0
    ∧ (main_local_mode ⟨[], 0⟩ "missing.xml" ⟨200, .null, ""⟩).2
        = .error (.fileNotFound "missing.xml")
    ∧ (upload_local_xml ⟨[], 0⟩ "missing.xml" ⟨200, .null, ""⟩).1.netCalls = 0
    ∧ (upload_local_xml ⟨[], 0⟩ "missing.xml" ⟨200, .null, ""⟩).2
        = .error (.fileNotFound "missing.xml") :=
  C6_missing_file_no_network ⟨[], 0⟩ "missing.xml" ⟨200, .null, ""⟩ (by decide)

/-! Claim C7. -/

/-- C7 as amended: for every response with a 4xx or 5xx status the
report download fails with the HTTP error and leaves the file system
untouched, the error being raised before the output file is opened. -/
theorem C7_report_error_no_write (fs : List (String × String)) (out_path : String)
    (r : HttpResp) (h4 : 400 ≤ r.status) (h6 : r.status < 600) :
    download_report_html fs out_path r = (fs, .error (.httpError r.status)) := by
  unfold download_report_html raise_for_status
  rw [if_pos ⟨h4, h6⟩]

/-- C7 witness: a 404 on the report endpoint leaves the existing report
file untouched and raises the HTTP error. -/
theorem C7_report_error_no_write_witness :
    download_report_html [("report.html", "old")] "report.html" ⟨404, .null, "nf"⟩
      = ([("report.html", "old")], .error (.httpError 404)) :=
  C7_report_error_no_write [("report.html", "old")] "report.html" ⟨404, .null, "nf"⟩
    (by decide) (by decide)

/-- C7 counterexample: 301 and 600 are non-2xx statuses, yet
raise_for_status passes them, the destination file is overwritten and no
ReportUnavailable error is raised. -/
theorem C7_report_error_no_write_cex :
    download_report_html [("report.html", "old")] "report.html" ⟨301, .null, "redirect"⟩
        = ([("report.html", "redirect")], .ok "report.html")
    ∧ download_report_html [("report.html", "old")] "report.html" ⟨600, .null, "weird"⟩
        = ([("report.html", "weird")], .ok "report.html")
    ∧ (.ok "report.html" : Except PyErr String) ≠ .error (.httpError 301)
    ∧ [("report.html", "redirect")] ≠ [("report.html", "old")] := by
  decide

/-! Claim C8. -/

lemma dictGet_insert (d : List (Json × Json)) (k v key : Json) :
    dictGet (dictInsert d k v) key = if k = key then some v else dictGet d key := by
  induction d with
  | nil => simp [dictInsert, dictGet]
  | cons hd rest ih =>
    obtain ⟨k0, v0⟩ := hd
    by_cases h0 : k0 = k
    · subst h0
      simp only [dictInsert, if_pos rfl]
      by_cases h1 : k0 = key <;> simp [dictGet, h1]
    · simp only [dictInsert, if_neg h0]
      by_cases h1 : k0 = key
      · subst h1
        have hkk : ¬ (k = k0) := fun hh => h0 hh.symm
        simp [dictGet, hkk]
      · simp [dictGet, h1, ih]

lemma build_lookup_pairs (ps : List (String × Json)) : ∀ acc,
    build_lookup acc (ps.map (fun p => Json.obj [("label", .str p.1), ("id", p.2)]))
      = .ok (ps.foldl (fun a p => dictInsert a (.str p.1) p.2) acc) := by
  induction ps with
  | nil => intro acc; rfl
  | cons p rest ih =>
    intro acc
    obtain ⟨l, i⟩ := p
    have hstep :
        build_lookup acc ((Json.obj [("label", Json.str l), ("id", i)])
            :: rest.map (fun p => Json.obj [("label", .str p.1), ("id", p.2)]))
          = build_lookup (dictInsert acc (.str l) i)
              (rest.map (fun p => Json.obj [("label", .str p.1), ("id", p.2)])) := by
      simp [build_lookup, pySubscript, Json.lookup]
    simp only [List.map_cons, List.foldl_cons]
    rw [hstep]
    exact ih _

lemma dictGet_foldl (ps : List (String × Json)) : ∀ (acc : List (Json × Json)) (lab : String),
    dictGet (ps.foldl (fun a p => dictInsert a (.str p.1) p.2) acc) (.str lab)
      = ((ps.reverse.find? (fun p => p.1 == lab)).map Prod.snd).or (dictGet acc (.str lab)) := by
  induction ps with
  | nil => intro acc lab; simp [Option.or]
  | cons p rest ih =>
    intro acc lab
    obtain ⟨l, i⟩ := p
    simp only [List.foldl_cons, List.reverse_cons]
    rw [ih, List.find?_append]
    rcases hfind : rest.reverse.find? (fun p => p.1 == lab) with _ | q
    · by_cases hl : l = lab
      · subst hl
        simp [hfind, List.find?, dictGet_insert, Option.or]
      · have hb : (l == lab) = false := by simp [hl]
        simp [hfind, List.find?, hb, hl, dictGet_insert, Option.or]
    · simp [hfind, Option.or]

/-- C8 as amended: the label lookup is an exact-string match against the
fetched suite list, returns absent when no suite carries the label, and
when several suites share a label the id of the last matching suite wins
(the dict comprehension overwrites earlier bindings). -/
theorem C8_label_lookup_last_wins (ls : List (String × Json)) (lab : String) :
    ∃ d, create_test_suite_lookup (mkSuitePayload ls) = .ok d
    ∧ dictGet d (.str lab) = (ls.reverse.find? (fun p => p.1 == lab)).map Prod.snd
    ∧ ((∀ p ∈ ls, p.1 ≠ lab) → dictGet d (.str lab) = none) := by
  refine ⟨ls.foldl (fun a p => dictInsert a (.str p.1) p.2) [], ?_, ?_, ?_⟩
  · simp only [create_test_suite_lookup, mkSuitePayload, pySubscript, Json.lookup, pyIter]
    simpa using build_lookup_pairs ls []
  · rw [dictGet_foldl]
    rcases hf : ls.reverse.find? (fun p => p.1 == lab) with _ | q <;>
      simp [hf, dictGet, Option.or]
  · intro h
    rw [dictGet_foldl]
    have hnone : ls.reverse.find? (fun p => p.1 == lab) = none := by
      rw [List.find?_eq_none]
      intro x hx
      have hne := h x (by simpa using hx)
      simpa using hne
    simp [hnone, dictGet, Option.or]

/-- C8 witness: with distinct labels the lookup returns the matching id
and returns absent for a label no suite carries. -/
theorem C8_label_lookup_last_wins_witness :
    (∃ d, create_test_suite_lookup (mkSuitePayload [("A", .str "1"), ("B", .str "2")]) = .ok d
      ∧ dictGet d (.str "B") = some (.str "2"))
    ∧ (∃ d, create_test_suite_lookup (mkSuitePayload [("A", .str "1")]) = .ok d
      ∧ dictGet d (.str "Z") = none) := by
  constructor
  · obtain ⟨d, hd, hfind, _⟩ := C8_label_lookup_last_wins [("A", .str "1"), ("B", .str "2")] "B"
    refine ⟨d, hd, ?_⟩
    rw [hfind]; decide
  · obtain ⟨d, hd, _, habs⟩ := C8_label_lookup_last_wins [("A", .str "1")] "Z"
    exact ⟨d, hd, habs (by decide)⟩

/-- C8 counterexample: with two suites sharing the label A, the lookup
returns the id of the second (the dict comprehension overwrites), not
the id of the first matching suite. -/
theorem C8_label_lookup_last_wins_cex :
    create_test_suite_lookup (mkSuitePayload [("A", .str "1"), ("A", .str "2")])
        = .ok [(.str "A", .str "2")]
    ∧ ([("A", Json.str "1"), ("A", Json.str "2")].find? (fun p => p.1 == "A")).map Prod.snd
        = some (.str "1")
    ∧ dictGet [(.str "A", .str "2")] (.str "A") = some (.str "2")
    ∧ (some (Json.str "2") : Option Json) ≠ some (.str "1") := by
  decide

/-! Claim C2. -/

lemma pyOrE_triple (a b c : Json) :
    pyOrE (.ok a) (fun _ => pyOrE (.ok b) (fun _ => .ok c)) = .ok (pyOrJ a (pyOrJ b c)) := by
  by_cases h1 : a.truthy <;> by_cases h2 : b.truthy <;> simp [pyOrE, pyOrJ, h1, h2]

lemma normalize_suite_obj (fs : List (String × Json)) :
    normalize_suite (.obj fs) = .ok (normObj (.obj fs)) := by
  unfold normalize_suite normObj
  simp only [pyGet_obj, pyGetD_obj, pyOrE_triple]

lemma map_entries_obj : ∀ es : List Json, (∀ e ∈ es, e.isObj = true) →
    map_entries es = .ok (es.map normObj) := by
  intro es
  induction es with
  | nil => intro _; rfl
  | cons e rest ih =>
    intro h
    have he : e.isObj = true := h e (by simp)
    obtain ⟨fs, rfl⟩ : ∃ fs, e = .obj fs := by
      cases e with
      | obj fs => exact ⟨fs, rfl⟩
      | null => simp [Json.isObj] at he
      | bool b => simp [Json.isObj] at he
      | num n => simp [Json.isObj] at he
      | str s => simp [Json.isObj] at he
      | arr xs => simp [Json.isObj] at he
    simp only [map_entries, normalize_suite_obj, List.map_cons]
    rw [ih (fun x hx => h x (by simp [hx]))]

lemma find_block_none (cfs : List (String × Json)) : ∀ keys : List String,
    (∀ k ∈ keys, Json.lookup cfs k = none) → find_block (.obj cfs) keys = .ok none := by
  intro keys
  induction keys with
  | nil => intro _; rfl
  | cons k ks ih =>
    intro h
    have hk := h k (by simp)
    simp only [find_block, pyContains, hk, Option.isSome]
    exact ih (fun k2 hk2 => h k2 (by simp [hk2]))

lemma isEmpty_false_of_ne_nil {α : Type} {l : List α} (h : l ≠ []) : l.isEmpty = false := by
  cases l with
  | nil => exact absurd rfl h
  | cons x xs => rfl

/-- C2 as amended: on a suite-collection payload whose collection value
is an object, the Suite Catalog returns the empty sequence when none of
the three candidate suite keys is present; a one-element sequence when
the ExecutableTestSuite value of the found block is a single object (for
an empty object the record is taken from the block itself, the or-chain
fallback); and, when that value is a non-empty array of suite objects, a
sequence of exactly one record per entry in the service-returned order. -/
theorem C2_suite_catalog_shapes (dfs cfs : List (String × Json))
    (hcol : Json.lookup dfs "EtfItemCollection" = some (.obj cfs)) :
    ((∀ k ∈ suiteKeys, Json.lookup cfs k = none) →
        get_executable_test_suites (.obj dfs) = .ok (.arr []))
    ∧ (∀ bfs efs, find_block (.obj cfs) suiteKeys = .ok (some (.obj bfs)) →
        Json.lookup bfs "ExecutableTestSuite" = some (.obj efs) →
        ∃ r, get_executable_test_suites (.obj dfs) = .ok (.arr [r]))
    ∧ (∀ bfs es, find_block (.obj cfs) suiteKeys = .ok (some (.obj bfs)) →
        Json.lookup bfs "ExecutableTestSuite" = some (.arr es) →
        es ≠ [] → (∀ e ∈ es, e.isObj = true) →
        get_executable_test_suites (.obj dfs) = .ok (.arr (es.map normObj))
        ∧ (es.map normObj).length = es.length) := by
  have hget : pyGetD (Json.obj dfs) "EtfItemCollection" (Json.obj dfs) = .ok (.obj cfs) := by
    simp [pyGetD, hcol]
  refine ⟨?_, ?_, ?_⟩
  · intro hnone
    have hfb := find_block_none cfs suiteKeys hnone
    simp [get_executable_test_suites, hget, hfb, Json.truthy]
  · intro bfs efs hfb hlk
    have hbne : bfs ≠ [] := by
      intro hnil
      rw [hnil] at hlk
      simp [Json.lookup] at hlk
    have hbe : bfs.isEmpty = false := isEmpty_false_of_ne_nil hbne
    by_cases hefs : efs.isEmpty = true
    · refine ⟨normObj (.obj bfs), ?_⟩
      simp [get_executable_test_suites, hget, hfb, Json.truthy, hbe, pyOrE, pyGet_obj,
        jGet, hlk, hefs, Json.isObj, pyIter, map_entries, normalize_suite_obj]
    · refine ⟨normObj (.obj efs), ?_⟩
      simp [get_executable_test_suites, hget, hfb, Json.truthy, hbe, pyOrE, pyGet_obj,
        jGet, hlk, hefs, Json.isObj, pyIter, map_entries, normalize_suite_obj]
  · intro bfs es hfb hlk hene hobjs
    have hbne : bfs ≠ [] := by
      intro hnil
      rw [hnil] at hlk
      simp [Json.lookup] at hlk
    have hbe : bfs.isEmpty = false := isEmpty_false_of_ne_nil hbne
    have hese : es.isEmpty = false := isEmpty_false_of_ne_nil hene
    refine ⟨?_, by simp⟩
    have hmap := map_entries_obj es hobjs
    simp [get_executable_test_suites, hget, hfb, Json.truthy, hbe, pyOrE, pyGet_obj,
      jGet, hlk, hese, Json.isObj, pyIter, hmap]

/-- C2 witness: the missing-key, single-object and two-element-array
payload shapes, yielding zero, one, and two records in order. -/
theorem C2_suite_catalog_shapes_witness :
    get_executable_test_suites (.obj [("EtfItemCollection", .obj [("other", .null)])])
      = .ok (.arr [])
    ∧ (∃ r, get_executable_test_suites (.obj [("EtfItemCollection",
        .obj [("executableTestSuites",
          .obj [("ExecutableTestSuite", .obj [("id", .str "E1")])])])])
      = .ok (.arr [r]))
    ∧ get_executable_test_suites (.obj [("EtfItemCollection",
        .obj [("executableTestSuites",
          .obj [("ExecutableTestSuite",
            .arr [.obj [("id", .str "E1")], .obj [("id", .str "E2")]])])])])
      = .ok (.arr ([Json.obj [("id", .str "E1")], Json.obj [("id", .str "E2")]].map normObj)) := by
  refine ⟨?_, ?_, ?_⟩
  · exact (C2_suite_catalog_shapes [("EtfItemCollection", .obj [("other", .null)])]
      [("other", .null)] (by decide)).1 (by decide)
  · exact (C2_suite_catalog_shapes
      [("EtfItemCollection", .obj [("executableTestSuites",
        .obj [("ExecutableTestSuite", .obj [("id", .str "E1")])])])]
      [("executableTestSuites", .obj [("ExecutableTestSuite", .obj [("id", .str "E1")])])]
      (by decide)).2.1
      [("ExecutableTestSuite", .obj [("id", .str "E1")])] [("id", .str "E1")]
      (by decide) (by decide)
  · exact ((C2_suite_catalog_shapes
      [("EtfItemCollection", .obj [("executableTestSuites",
        .obj [("ExecutableTestSuite", .arr [.obj [("id", .str "E1")], .obj [("id", .str "E2")]])])])]
      [("executableTestSuites",
        .obj [("ExecutableTestSuite", .arr [.obj [("id", .str "E1")], .obj [("id", .str "E2")]])])]
      (by decide)).2.2
      [("ExecutableTestSuite", .arr [.obj [("id", .str "E1")], .obj [("id", .str "E2")]])]
      [.obj [("id", .str "E1")], .obj [("id", .str "E2")]]
      (by decide) (by decide) (by decide) (by decide)).1

/-- C2 counterexample: an empty ExecutableTestSuite array holds zero
suite entries, yet the catalog returns one record (fabricated from the
wrapper block, the empty array being falsy in the or-chain); and an
array entry that is not an object makes the flattening raise
AttributeError rather than produce a record. -/
theorem C2_suite_catalog_shapes_cex :
    get_executable_test_suites (.obj [("EtfItemCollection",
        .obj [("executableTestSuites", .obj [("ExecutableTestSuite", .arr [])])])])
      = .ok (.arr [.obj [("id", .null), ("label", .str ""), ("description", .str "")]])
    ∧ (Json.arr [.obj [("id", .null), ("label", .str ""), ("description", .str "")]])
        ≠ .arr []
    ∧ get_executable_test_suites (.obj [("EtfItemCollection",
        .obj [("executableTestSuites", .obj [("ExecutableTestSuite", .arr [.str "x"])])])])
      = .error .attributeError := by
  decide

/-! Claim C3. -/

lemma wait_go_polls_lt (t i : Nat) (l : List PollEntry) : ∀ e p n,
    wait_go t i e p l = .pollTimeout n → p < n := by
  induction l with
  | nil => intro e p n h; simp [wait_go] at h
  | cons hd rest ih =>
    intro e p n h
    obtain ⟨res, d⟩ := hd
    cases res with
    | error err => simp [wait_go] at h
    | ok s =>
      simp only [wait_go] at h
      by_cases hterm : isTerminal s = true
      · simp [hterm] at h
      · by_cases htime : t < e + d
        · simp [hterm, htime] at h
          omega
        · simp [hterm, htime] at h
          have := ih _ _ _ h
          omega

lemma wait_go_timeout_time (t i : Nat) (l : List PollEntry) : ∀ e p n,
    (∀ q ∈ l, q.2 = 0) → wait_go t i e p l = .pollTimeout n → e = i * p →
    t < i * (n - 1) := by
  induction l with
  | nil => intro e p n _ h _; simp [wait_go] at h
  | cons hd rest ih =>
    intro e p n hz h he
    obtain ⟨res, d⟩ := hd
    have hd0 : d = 0 := hz (res, d) (by simp)
    subst hd0
    cases res with
    | error err => simp [wait_go] at h
    | ok s =>
      simp only [wait_go] at h
      by_cases hterm : isTerminal s = true
      · simp [hterm] at h
      · by_cases htime : t < e
        · simp [hterm, htime] at h
          have hn1 : n - 1 = p := by omega
          rw [hn1, ← he]
          exact htime
        · simp [hterm, htime] at h
          exact ih (e + i) (p + 1) n (fun q hq => hz q (by simp [hq])) h (by rw [he]; ring)

lemma wait_go_timeout_no_terminal (t i : Nat) (l : List PollEntry) : ∀ e p n,
    wait_go t i e p l = .pollTimeout n →
    ∀ q ∈ l.take (n - p), ∀ s, q.1 = Except.ok s → isTerminal s = false := by
  induction l with
  | nil => intro e p n h; simp [wait_go] at h
  | cons hd rest ih =>
    intro e p n h q hq s hqs
    obtain ⟨res, d⟩ := hd
    cases res with
    | error err => simp [wait_go] at h
    | ok s0 =>
      have hlt := wait_go_polls_lt t i ((Except.ok s0, d) :: rest) e p n h
      simp only [wait_go] at h
      by_cases hterm : isTerminal s0 = true
      · simp [hterm] at h
      · by_cases htime : t < e + d
        · simp [hterm, htime] at h
          have hnp : n - p = 1 := by omega
          rw [hnp] at hq
          simp [List.take] at hq
          rw [hq] at hqs
          have hs : s0 = s := Except.ok.inj hqs
          rw [← hs]
          simpa using hterm
        · simp [hterm, htime] at h
          have hlt2 := wait_go_polls_lt t i rest _ _ _ h
          have hnp : n - p = (n - (p + 1)) + 1 := by omega
          rw [hnp] at hq
          rw [List.take_succ_cons] at hq
          rcases List.mem_cons.mp hq with hq1 | hq2
          · rw [hq1] at hqs
            have hs : s0 = s := Except.ok.inj hqs
            rw [← hs]
            simpa using hterm
          · exact ih _ _ _ h q hq2 s hqs

lemma ceil_div_le (i m t : Nat) (h : t < i * m) : (t + i - 1) / i ≤ m := by
  have hi : 0 < i := by
    rcases Nat.eq_zero_or_pos i with h0 | h0
    · subst h0; simp at h
    · exact h0
  rw [← Nat.lt_succ_iff, Nat.div_lt_iff_lt_mul hi]
  have h2 : (m + 1) * i = i * m + i := by ring
  rw [Nat.succ_eq_add_one, h2]
  have h3 : i * m + 1 ≤ i * m + i := by omega
  omega

/-- C3: in the time model where each status check is instantaneous and
each sleep advances the clock by the poll interval, the poll loop raises
its timeout only after at least the rounded-up quotient of timeout by
poll interval polling attempts have been made, and never raises it on a
run in which any prior poll observed a terminal status: every status
observed before the timeout is non-terminal. -/
theorem C3_timeout_after_enough_polls (timeout interval n : Nat) (script : List PollEntry)
    (hz : ∀ q ∈ script, q.2 = 0)
    (hto : wait_until_finished timeout interval script = .pollTimeout n) :
    (timeout + interval - 1) / interval ≤ n
    ∧ ∀ q ∈ script.take n, ∀ s, q.1 = Except.ok s → isTerminal s = false := by
  constructor
  · have h1 := wait_go_timeout_time timeout interval script 0 0 n hz hto (by simp)
    have h2 := ceil_div_le interval (n - 1) timeout h1
    exact le_trans h2 (Nat.sub_le n 1)
  · have h3 := wait_go_timeout_no_terminal timeout interval script 0 0 n hto
    simpa using h3

/-- C3 witness: with timeout 3 and interval 2 the loop times out on the
third poll, and 3 is at least the rounded-up quotient 2; none of the
three observed statuses is terminal. -/
theorem C3_timeout_after_enough_polls_witness :
    (3 + 2 - 1) / 2 ≤ 3
    ∧ ∀ q ∈ ([(Except.ok "RUNNING", 0), (Except.ok "RUNNING", 0),
        (Except.ok "RUNNING", 0)] : List PollEntry).take 3,
      ∀ s, q.1 = Except.ok s → isTerminal s = false :=
  C3_timeout_after_enough_polls 3 2 3
    [(Except.ok "RUNNING", 0), (Except.ok "RUNNING", 0), (Except.ok "RUNNING", 0)]
    (by decide) (by decide)

/-! Claim C4. -/

lemma wait_go_append (t i : Nat) (pre : List PollEntry) : ∀ e p (l : List PollEntry),
    wait_go t i e p pre = .scriptEnded →
    ∃ e2, wait_go t i e p (pre ++ l) = wait_go t i e2 (p + pre.length) l := by
  induction pre with
  | nil => intro e p l _; exact ⟨e, by simp⟩
  | cons hd rest ih =>
    intro e p l h
    obtain ⟨res, d⟩ := hd
    cases res with
    | error err => simp [wait_go] at h
    | ok s =>
      simp only [wait_go] at h
      by_cases hterm : isTerminal s = true
      · simp [hterm] at h
      · by_cases htime : t < e + d
        · simp [hterm, htime] at h
        · simp only [hterm, htime, if_neg, if_false] at h
          obtain ⟨e2, he2⟩ := ih (e + d + i) (p + 1) l (by simpa [hterm, htime] using h)
          refine ⟨e2, ?_⟩
          rw [List.cons_append]
          simp only [wait_go, hterm, htime, if_false]
          rw [he2]
          have hl : p + 1 + rest.length = p + (rest.length + 1) := by omega
          simp [hl]

/-- C4: a poll sequence that runs out its prefix without finishing and
then observes a terminal status makes the loop return that status as an
ordinary value, counting one poll past the prefix; in particular the
outcome is neither the timeout nor a transport error, the only two
exceptional outcomes the loop has. -/
theorem C4_terminal_returned_as_data (timeout interval d : Nat)
    (pre post : List PollEntry) (s : String)
    (hpre : wait_until_finished timeout interval pre = .scriptEnded)
    (hs : isTerminal s = true) :
    wait_until_finished timeout interval (pre ++ (Except.ok s, d) :: post)
        = .finished s (pre.length + 1)
    ∧ (∀ m, wait_until_finished timeout interval (pre ++ (Except.ok s, d) :: post)
        ≠ .pollTimeout m)
    ∧ (∀ err, wait_until_finished timeout interval (pre ++ (Except.ok s, d) :: post)
        ≠ .transport err) := by
  obtain ⟨e2, he2⟩ := wait_go_append timeout interval pre 0 0 ((Except.ok s, d) :: post) hpre
  have hmain : wait_until_finished timeout interval (pre ++ (Except.ok s, d) :: post)
      = .finished s (pre.length + 1) := by
    unfold wait_until_finished
    rw [he2]
    simp [wait_go, hs]
  refine ⟨hmain, ?_, ?_⟩
  · intro m hcontra
    rw [hmain] at hcontra
    simp at hcontra
  · intro err hcontra
    rw [hmain] at hcontra
    simp at hcontra

/-- C4 witness: after one non-terminal poll, COMPLETED and FAILED are
each returned as the value of the loop on the second poll. -/
theorem C4_terminal_returned_as_data_witness :
    wait_until_finished 1500 5 ([(Except.ok "RUNNING", 0)] ++ (Except.ok "COMPLETED", 0) :: [])
        = .finished "COMPLETED" 2
    ∧ wait_until_finished 1500 5 ([(Except.ok "RUNNING", 0)] ++ (Except.ok "FAILED", 0) :: [])
        = .finished "FAILED" 2 :=
  ⟨(C4_terminal_returned_as_data 1500 5 0 [(Except.ok "RUNNING", 0)] [] "COMPLETED"
      (by decide) (by decide)).1,
   (C4_terminal_returned_as_data 1500 5 0 [(Except.ok "RUNNING", 0)] [] "FAILED"
      (by decide) (by decide)).1⟩

/-! Claim C10. -/

/-- C10: the terminal test uppercases the observed status, so any string
whose uppercased form is COMPLETED or FAILED ends the loop immediately
with the status returned in its original spelling, while any other
string is non-terminal and the loop proceeds to the timeout check and,
within time, to the next poll. -/
theorem C10_terminal_case_insensitive (timeout interval elapsed polls d : Nat)
    (s : String) (rest : List PollEntry) :
    ((pyUpper s = "COMPLETED" ∨ pyUpper s = "FAILED") →
      wait_go timeout interval elapsed polls ((Except.ok s, d) :: rest)
        = .finished s (polls + 1))
    ∧ ((pyUpper s ≠ "COMPLETED" ∧ pyUpper s ≠ "FAILED") →
      wait_go timeout interval elapsed polls ((Except.ok s, d) :: rest)
        = if timeout < elapsed + d then .pollTimeout (polls + 1)
          else wait_go timeout interval (elapsed + d + interval) (polls + 1) rest) := by
  constructor
  · intro h
    have hterm : isTerminal s = true := by
      rcases h with h | h <;> simp [isTerminal, h]
    simp [wait_go, hterm]
  · rintro ⟨h1, h2⟩
    have hterm : isTerminal s = false := by
      simp [isTerminal, h1, h2]
    simp only [wait_go, hterm, Bool.false_eq_true, if_false]

/-- C10 witness: the lowercase completed is terminal and returned in its
original spelling; RUNNING is not terminal and the loop continues to the
end of the script. -/
theorem C10_terminal_case_insensitive_witness :
    wait_go 1500 5 0 0 [(Except.ok "completed", 0)] = .finished "completed" 1
    ∧ wait_go 1500 5 0 0 [(Except.ok "RUNNING", 0)] = .scriptEnded := by
  constructor
  · exact (C10_terminal_case_insensitive 1500 5 0 0 0 "completed" []).1 (by decide)
  · have h := (C10_terminal_case_insensitive 1500 5 0 0 0 "RUNNING" []).2 (by decide)
    rw [h]
    decide
